import Mathlib

/-!
Verification of the cognitive-dashboard packet pipeline core.

Shallow embedding of the two source files:
  - `src/backend/app/firewall_enforce.h` : the enforcement engine
    (`FirewallAction`, `PacketDecision`, `SimpleFlowEnforcer`).
  - `src/backend/src/sniffer_engine.cpp` : the SPSC ring buffer
    (`ConcurrentRingBuffer`) and the capture-engine lifecycle
    (`start_capture_engine`, `stop_capture_engine`, `capture_loop`,
    `get_write_index`).

C++ machine integers are modelled as `Nat` (no arithmetic in the sources
can overflow below the relevant bounds; where a bound matters it appears
as an explicit hypothesis or an explicit `% 1024`).  Pointers that are
only tested for nullness are modelled as `Bool` / `Option`.
-/

/-- `enum class FirewallAction : uint8_t` from firewall_enforce.h. -/
inductive FirewallAction where
  | PASS
  | DROP
  | REJECT
  | RATE_LIMIT
deriving DecidableEq

/-- `struct PacketDecision` from firewall_enforce.h: an action plus the
id of the rule that produced it. -/
structure PacketDecision where
  action : FirewallAction
  rule_id : String
deriving DecidableEq

/-- State of `class SimpleFlowEnforcer`: the atomic `default_action_`
and the `std::map<FlowKey, FirewallAction> enforced_flows_`, modelled by
its lookup function (`FlowKey` = `uint64_t`, modelled as `Nat`). -/
structure SimpleFlowEnforcer where
  default_action : FirewallAction
  enforced_flows : Nat → Option FirewallAction

namespace SimpleFlowEnforcer

/-- A freshly constructed `SimpleFlowEnforcer`: default action `PASS`,
empty flow map (the in-class initializers). -/
def init : SimpleFlowEnforcer :=
  { default_action := FirewallAction.PASS, enforced_flows := fun _ => none }

/-- `SimpleFlowEnforcer::get_decision(packet_data, len)`, line for line:
drop as `JUMBO_PACKET` when `len > 1500`, otherwise return the default
action tagged `DEFAULT_POLICY`.  The body never parses `packet_data` and
never consults `enforced_flows_` (the lookup is a TODO comment in the
source), exactly as transcribed here. -/
def get_decision (s : SimpleFlowEnforcer) (packet_data : List Nat) (len : Nat) :
    PacketDecision :=
  if 1500 < len then
    { action := FirewallAction.DROP, rule_id := "JUMBO_PACKET" }
  else
    { action := s.default_action, rule_id := "DEFAULT_POLICY" }

/-- `SimpleFlowEnforcer::enforce_flow_policy`: `enforced_flows_[flow_id] = action`
(insert-or-overwrite on the map; the `std::cout` line has no state effect). -/
def enforce_flow_policy (s : SimpleFlowEnforcer) (flow_id : Nat)
    (action : FirewallAction) : SimpleFlowEnforcer :=
  { s with enforced_flows := fun k => if k = flow_id then some action else s.enforced_flows k }

/-- `SimpleFlowEnforcer::get_default_action`. -/
def get_default_action (s : SimpleFlowEnforcer) : FirewallAction :=
  s.default_action

/-- `SimpleFlowEnforcer::set_default_action`. -/
def set_default_action (s : SimpleFlowEnforcer) (action : FirewallAction) :
    SimpleFlowEnforcer :=
  { s with default_action := action }

end SimpleFlowEnforcer

/-- Claim C1: after `enforce_flow_policy(42, DROP)` on a fresh engine
(default `PASS`), the table maps flow 42 to `DROP`, yet `get_decision`
on a 500-byte packet still returns the decision (PASS, DEFAULT_POLICY),
not (DROP, FLOW_POLICY): the flow-policy table does not take precedence,
because the lookup is an unimplemented TODO in the source. -/
theorem c1_flow_policy_ignored :
    (SimpleFlowEnforcer.enforce_flow_policy SimpleFlowEnforcer.init 42
        FirewallAction.DROP).enforced_flows 42 = some FirewallAction.DROP ∧
    SimpleFlowEnforcer.get_decision
        (SimpleFlowEnforcer.enforce_flow_policy SimpleFlowEnforcer.init 42
          FirewallAction.DROP) [] 500
      = { action := FirewallAction.PASS, rule_id := "DEFAULT_POLICY" } ∧
    ({ action := FirewallAction.PASS, rule_id := "DEFAULT_POLICY" } : PacketDecision)
      ≠ { action := FirewallAction.DROP, rule_id := "FLOW_POLICY" } := by
  refine ⟨rfl, by decide, by decide⟩

/-- Claim C2: for every engine state (any flow-policy table, any default
action) and every packet whose length argument exceeds 1500 (within the
`uint16_t` range), `get_decision` returns (DROP, JUMBO_PACKET); the check
precedes everything else in the body. -/
theorem c2_jumbo_precedence (s : SimpleFlowEnforcer) (packet_data : List Nat)
    (len : Nat) (hlen : 1500 < len) (hcap : len < 65536) :
    SimpleFlowEnforcer.get_decision s packet_data len
      = { action := FirewallAction.DROP, rule_id := "JUMBO_PACKET" } := by
  simp [SimpleFlowEnforcer.get_decision, hlen]

/-- Witness for C2 at a concrete oversized packet. -/
theorem c2_jumbo_precedence_witness :
    1500 < 2000 ∧ 2000 < 65536 ∧
    SimpleFlowEnforcer.get_decision SimpleFlowEnforcer.init [] 2000
      = { action := FirewallAction.DROP, rule_id := "JUMBO_PACKET" } :=
  ⟨by decide, by decide,
    c2_jumbo_precedence SimpleFlowEnforcer.init [] 2000 (by decide) (by decide)⟩

/-- Claim C3: a fresh engine defaults to `PASS`; `set_default_action`
replaces the default; and for every packet of length at most 1500 whose
flow has no entry in the flow-policy table, `get_decision` returns the
current default action tagged `DEFAULT_POLICY`. -/
theorem c3_default_fallback (s : SimpleFlowEnforcer) (packet_data : List Nat)
    (len flow : Nat) (a : FirewallAction)
    (hlen : len ≤ 1500) (hflow : s.enforced_flows flow = none) :
    SimpleFlowEnforcer.init.default_action = FirewallAction.PASS ∧
    (SimpleFlowEnforcer.set_default_action s a).default_action = a ∧
    SimpleFlowEnforcer.get_decision s packet_data len
      = { action := s.default_action, rule_id := "DEFAULT_POLICY" } := by
  refine ⟨rfl, rfl, ?_⟩
  simp [SimpleFlowEnforcer.get_decision, Nat.not_lt.mpr hlen]

/-- Witness for C3 on a fresh engine and a 500-byte packet of flow 7. -/
theorem c3_default_fallback_witness :
    (500 : Nat) ≤ 1500 ∧ SimpleFlowEnforcer.init.enforced_flows 7 = none ∧
    (SimpleFlowEnforcer.init.default_action = FirewallAction.PASS ∧
      (SimpleFlowEnforcer.set_default_action SimpleFlowEnforcer.init
        FirewallAction.REJECT).default_action = FirewallAction.REJECT ∧
      SimpleFlowEnforcer.get_decision SimpleFlowEnforcer.init [] 500
        = { action := SimpleFlowEnforcer.init.default_action,
            rule_id := "DEFAULT_POLICY" }) :=
  ⟨by decide, rfl,
    c3_default_fallback SimpleFlowEnforcer.init [] 500 7 FirewallAction.REJECT
      (by decide) rfl⟩

/-- Claim C10: `enforce_flow_policy f a` sets the table entry for `f` to
`a` and changes nothing else: every other flow key `g ≠ f` keeps its
entry and the default action (as returned by `get_default_action`) is
unchanged. -/
theorem c10_enforce_frame (s : SimpleFlowEnforcer) (f g : Nat)
    (a : FirewallAction) (hg : g ≠ f) :
    (SimpleFlowEnforcer.enforce_flow_policy s f a).enforced_flows f = some a ∧
    (SimpleFlowEnforcer.enforce_flow_policy s f a).enforced_flows g
      = s.enforced_flows g ∧
    SimpleFlowEnforcer.get_default_action (SimpleFlowEnforcer.enforce_flow_policy s f a)
      = SimpleFlowEnforcer.get_default_action s := by
  refine ⟨?_, ?_, rfl⟩
  · simp [SimpleFlowEnforcer.enforce_flow_policy]
  · simp [SimpleFlowEnforcer.enforce_flow_policy, hg]

/-- Witness for C10: enforcing on flow 1 leaves flow 2 and the default
untouched. -/
theorem c10_enforce_frame_witness :
    (2 : Nat) ≠ 1 ∧
    ((SimpleFlowEnforcer.enforce_flow_policy SimpleFlowEnforcer.init 1
        FirewallAction.DROP).enforced_flows 1 = some FirewallAction.DROP ∧
      (SimpleFlowEnforcer.enforce_flow_policy SimpleFlowEnforcer.init 1
        FirewallAction.DROP).enforced_flows 2
        = SimpleFlowEnforcer.init.enforced_flows 2 ∧
      SimpleFlowEnforcer.get_default_action
          (SimpleFlowEnforcer.enforce_flow_policy SimpleFlowEnforcer.init 1
            FirewallAction.DROP)
        = SimpleFlowEnforcer.get_default_action SimpleFlowEnforcer.init) :=
  ⟨by decide,
    c10_enforce_frame SimpleFlowEnforcer.init 1 2 FirewallAction.DROP (by decide)⟩

/-- `template <typename T> class ConcurrentRingBuffer` from
sniffer_engine.cpp: capacity fixed at construction, slot vector,
consumer index `head_`, producer index `tail_`.  (In the sequential
embedding the atomics are plain fields; the acquire/release orderings
only matter for the cross-thread claims.) -/
structure ConcurrentRingBuffer (T : Type) where
  capacity : Nat
  buffer : List T
  head : Nat
  tail : Nat
deriving DecidableEq

namespace ConcurrentRingBuffer

/-- The constructor `ConcurrentRingBuffer(capacity)`: `buffer_(capacity)`
value-initializes `capacity` slots (`d` stands for the value-initialized
element), `head_ = 0`, `tail_ = 0`. -/
def init (capacity : Nat) (d : T) : ConcurrentRingBuffer T :=
  { capacity := capacity, buffer := List.replicate capacity d, head := 0, tail := 0 }

/-- `ConcurrentRingBuffer::push`: compute `next_tail = (tail_+1) % capacity_`;
if it equals `head_` the buffer is full and the call returns `false`
without touching any state; otherwise store the item at `tail_` and
publish `next_tail`. -/
def push (rb : ConcurrentRingBuffer T) (item : T) : ConcurrentRingBuffer T × Bool :=
  let next_tail := (rb.tail + 1) % rb.capacity
  if next_tail = rb.head then
    (rb, false)
  else
    ({ rb with buffer := rb.buffer.set rb.tail item, tail := next_tail }, true)

/-- `ConcurrentRingBuffer::pop`: if `head_ = tail_` the buffer is empty and
the call fails; otherwise read the slot at `head_` and advance
`head_ = (head_+1) % capacity_`.  The read slot is returned as the
`Option` component (`none` = the `false` return). -/
def pop (rb : ConcurrentRingBuffer T) : ConcurrentRingBuffer T × Option T :=
  if rb.head = rb.tail then
    (rb, none)
  else
    ({ rb with head := (rb.head + 1) % rb.capacity }, rb.buffer[rb.head]?)

/-- A sequence of consecutive `push` calls; returns the final buffer and
the list of the calls' boolean results, in call order. -/
def pushAll (rb : ConcurrentRingBuffer T) : List T → ConcurrentRingBuffer T × List Bool
  | [] => (rb, [])
  | x :: rest =>
    let p := push rb x
    let q := pushAll p.1 rest
    (q.1, p.2 :: q.2)

/-- A sequence of `n` consecutive `pop` calls; returns the final buffer
and the list of the calls' results, in call order. -/
def popN (rb : ConcurrentRingBuffer T) : Nat → ConcurrentRingBuffer T × List (Option T)
  | 0 => (rb, [])
  | Nat.succ m =>
    let p := pop rb
    let q := popN p.1 m
    (q.1, p.2 :: q.2)

theorem set_append_length (ys zs : List T) (x : T) :
    (ys ++ zs).set ys.length x = ys ++ zs.set 0 x := by
  induction ys with
  | nil => rfl
  | cons y ys ih => simp [List.set, ih]

theorem replicate_set_zero (m : Nat) (d x : T) :
    (List.replicate (m + 1) d).set 0 x = x :: List.replicate m d := by
  simp [List.replicate_succ]

/-- Pushing `xs` into a buffer whose live region `ys` starts at slot 0
(head 0, tail `ys.length`, the rest of the slots still default) succeeds
on every call and extends the live region to `ys ++ xs`, as long as one
slot stays free. -/
theorem pushAll_aligned (C : Nat) (d : T) :
    ∀ (xs ys : List T), ys.length + xs.length + 1 ≤ C →
    pushAll (⟨C, ys ++ List.replicate (C - ys.length) d, 0, ys.length⟩ :
        ConcurrentRingBuffer T) xs
      = (⟨C, (ys ++ xs) ++ List.replicate (C - (ys.length + xs.length)) d, 0,
            ys.length + xs.length⟩,
         List.replicate xs.length true) := by
  intro xs
  induction xs with
  | nil =>
    intro ys h
    simp [pushAll]
  | cons x rest ih =>
    intro ys h
    have hk : ys.length + 1 < C := by
      simp only [List.length_cons] at h; omega
    have hbuf : (ys ++ List.replicate (C - ys.length) d).set ys.length x
        = (ys ++ [x]) ++ List.replicate (C - (ys.length + 1)) d := by
      have hrep : C - ys.length = (C - (ys.length + 1)) + 1 := by omega
      rw [hrep, set_append_length, replicate_set_zero]
      simp
    have ih2 := ih (ys ++ [x]) (by
      simp only [List.length_append, List.length_cons, List.length_nil] at h ⊢
      omega)
    simp only [List.length_append, List.length_cons, List.length_nil,
      Nat.zero_add] at ih2
    simp only [pushAll, push]
    rw [Nat.mod_eq_of_lt hk]
    rw [if_neg (Nat.succ_ne_zero ys.length)]
    rw [hbuf]
    rw [ih2]
    have harith : ys.length + 1 + rest.length = ys.length + (x :: rest).length := by
      simp only [List.length_cons]; omega
    rw [harith]
    simp [List.append_assoc, List.replicate_succ]

/-- Popping `m` records from a buffer whose indices do not wrap
(`head + m ≤ tail < capacity`) succeeds on every call, returns the slots
`head, head+1, ...` in order, and only advances `head`. -/
theorem popN_linear (C : Nat) (B : List T) (t : Nat) (hB : B.length = C)
    (ht : t < C) :
    ∀ (m h : Nat), h + m ≤ t →
    popN (⟨C, B, h, t⟩ : ConcurrentRingBuffer T) m
      = (⟨C, B, h + m, t⟩, ((B.drop h).take m).map some) := by
  intro m
  induction m with
  | zero =>
    intro h hm
    simp [popN]
  | succ m ih =>
    intro h hm
    have hht : ¬ (h = t) := by omega
    have hhC : h + 1 < C := by omega
    have hhB : h < B.length := by omega
    have ih2 := ih (h + 1) (by omega)
    have hdrop : B.drop h = B[h] :: B.drop (h + 1) :=
      List.drop_eq_getElem_cons hhB
    simp only [popN, pop]
    rw [if_neg hht]
    rw [Nat.mod_eq_of_lt hhC]
    rw [ih2]
    have harith : h + 1 + m = h + (m + 1) := by omega
    rw [harith, List.getElem?_eq_getElem hhB, hdrop]
    rw [List.take_succ_cons, List.map_cons]

end ConcurrentRingBuffer

/-- Pushing `xs` into a freshly constructed buffer of capacity `C`, with
`xs.length + 1 ≤ C`: every push succeeds and the slots `0..xs.length-1`
hold `xs`. -/
theorem ConcurrentRingBuffer.pushAll_init (C : Nat) (d : T) (xs : List T)
    (h : xs.length + 1 ≤ C) :
    ConcurrentRingBuffer.pushAll (ConcurrentRingBuffer.init C d) xs
      = (⟨C, xs ++ List.replicate (C - xs.length) d, 0, xs.length⟩,
         List.replicate xs.length true) := by
  have hA := ConcurrentRingBuffer.pushAll_aligned C d xs []
    (by simpa using h)
  simpa using hA

/-- Claim C4: for a ring buffer constructed with capacity `C ≥ 2`, any
`C-1` consecutive pushes with no intervening pop all return true; the
`C`-th consecutive push returns false and leaves the whole buffer state
(head, tail and every slot) unchanged, and the `C-1` previously pushed
records are still retrievable, in order, by subsequent pops. -/
theorem c4_capacity_property (T : Type) (d : T) (C : Nat) (hC : 2 ≤ C)
    (xs : List T) (hxs : xs.length = C - 1) (y : T) :
    (ConcurrentRingBuffer.pushAll (ConcurrentRingBuffer.init C d) xs).2
      = List.replicate (C - 1) true ∧
    ConcurrentRingBuffer.push
        (ConcurrentRingBuffer.pushAll (ConcurrentRingBuffer.init C d) xs).1 y
      = ((ConcurrentRingBuffer.pushAll (ConcurrentRingBuffer.init C d) xs).1,
         false) ∧
    (ConcurrentRingBuffer.popN
        (ConcurrentRingBuffer.pushAll (ConcurrentRingBuffer.init C d) xs).1
        (C - 1)).2
      = xs.map some := by
  have hA2 := ConcurrentRingBuffer.pushAll_init C d xs (by omega)
  have hfull : (xs.length + 1) % C = 0 := by
    have hx : xs.length + 1 = C := by omega
    rw [hx, Nat.mod_self]
  have hB : (xs ++ List.replicate (C - xs.length) d).length = C := by
    simp only [List.length_append, List.length_replicate]
    omega
  have hpop := ConcurrentRingBuffer.popN_linear C
    (xs ++ List.replicate (C - xs.length) d) xs.length hB (by omega)
    (C - 1) 0 (by omega)
  refine ⟨?_, ?_, ?_⟩
  · rw [hA2, hxs]
  · rw [hA2]
    simp [ConcurrentRingBuffer.push, hfull]
  · rw [hA2]
    simp only [hpop, List.drop_zero]
    rw [List.take_left' hxs]

/-- Witness for C4: capacity 4, pushes of 1,2,3 succeed, the fourth
push (of 9) fails and changes nothing, and pops return 1,2,3. -/
theorem c4_capacity_property_witness :
    2 ≤ 4 ∧ ([1, 2, 3] : List Nat).length = 4 - 1 ∧
    ((ConcurrentRingBuffer.pushAll (ConcurrentRingBuffer.init 4 (0 : Nat))
        [1, 2, 3]).2 = List.replicate (4 - 1) true ∧
      ConcurrentRingBuffer.push
          (ConcurrentRingBuffer.pushAll (ConcurrentRingBuffer.init 4 (0 : Nat))
            [1, 2, 3]).1 9
        = ((ConcurrentRingBuffer.pushAll (ConcurrentRingBuffer.init 4 (0 : Nat))
            [1, 2, 3]).1, false) ∧
      (ConcurrentRingBuffer.popN
          (ConcurrentRingBuffer.pushAll (ConcurrentRingBuffer.init 4 (0 : Nat))
            [1, 2, 3]).1 (4 - 1)).2
        = ([1, 2, 3] : List Nat).map some) :=
  ⟨by decide, by decide,
    c4_capacity_property Nat 0 4 (by decide) [1, 2, 3] (by decide) 9⟩

/-- Claim C5: `n` pushes into a fresh buffer of capacity `C > n` all
succeed; `n` subsequent pops yield exactly the pushed records in push
order (FIFO), and the `(n+1)`-th pop on the then-empty buffer fails. -/
theorem c5_fifo_order (T : Type) (d : T) (C : Nat) (xs : List T)
    (h : xs.length < C) :
    (ConcurrentRingBuffer.pushAll (ConcurrentRingBuffer.init C d) xs).2
      = List.replicate xs.length true ∧
    (ConcurrentRingBuffer.popN
        (ConcurrentRingBuffer.pushAll (ConcurrentRingBuffer.init C d) xs).1
        xs.length).2
      = xs.map some ∧
    ConcurrentRingBuffer.pop
        (ConcurrentRingBuffer.popN
          (ConcurrentRingBuffer.pushAll (ConcurrentRingBuffer.init C d) xs).1
          xs.length).1
      = ((ConcurrentRingBuffer.popN
          (ConcurrentRingBuffer.pushAll (ConcurrentRingBuffer.init C d) xs).1
          xs.length).1, none) := by
  have hA2 := ConcurrentRingBuffer.pushAll_init C d xs (by omega)
  have hB : (xs ++ List.replicate (C - xs.length) d).length = C := by
    simp only [List.length_append, List.length_replicate]
    omega
  have hpop := ConcurrentRingBuffer.popN_linear C
    (xs ++ List.replicate (C - xs.length) d) xs.length hB h
    xs.length 0 (by omega)
  refine ⟨?_, ?_, ?_⟩
  · rw [hA2]
  · rw [hA2]
    simp only [hpop, List.drop_zero]
    rw [List.take_left' rfl]
  · rw [hA2]
    simp only [hpop, Nat.zero_add]
    simp [ConcurrentRingBuffer.pop]

/-- Witness for C5: capacity 4, pushes of 5,6,7 all succeed, pops return
5,6,7 in order, and a fourth pop fails. -/
theorem c5_fifo_order_witness :
    ([5, 6, 7] : List Nat).length < 4 ∧
    ((ConcurrentRingBuffer.pushAll (ConcurrentRingBuffer.init 4 (0 : Nat))
        [5, 6, 7]).2 = List.replicate ([5, 6, 7] : List Nat).length true ∧
      (ConcurrentRingBuffer.popN
          (ConcurrentRingBuffer.pushAll (ConcurrentRingBuffer.init 4 (0 : Nat))
            [5, 6, 7]).1 ([5, 6, 7] : List Nat).length).2
        = ([5, 6, 7] : List Nat).map some ∧
      ConcurrentRingBuffer.pop
          (ConcurrentRingBuffer.popN
            (ConcurrentRingBuffer.pushAll (ConcurrentRingBuffer.init 4 (0 : Nat))
              [5, 6, 7]).1 ([5, 6, 7] : List Nat).length).1
        = ((ConcurrentRingBuffer.popN
            (ConcurrentRingBuffer.pushAll (ConcurrentRingBuffer.init 4 (0 : Nat))
              [5, 6, 7]).1 ([5, 6, 7] : List Nat).length).1, none)) :=
  ⟨by decide, c5_fifo_order Nat 0 4 [5, 6, 7] (by decide)⟩

/-- Global state of sniffer_engine.cpp plus the live capture contexts.
Fields mirror the globals: `g_stop_capture`, `g_write_index`,
`g_shared_buffer` (modelled as a nullness flag, since the capture loop
only tests the pointer and writes through it), and `g_capture_thread`
through its only observable, `joinable`.  `contexts` counts the live
capture-loop execution contexts (threads running `capture_loop`);
`local_write_index` and `flow_counter` are the loop locals of the
current context. -/
structure EngineState where
  g_stop_capture : Bool
  g_write_index : Nat
  g_shared_buffer : Bool
  joinable : Bool
  contexts : Nat
  local_write_index : Nat
  flow_counter : Nat
deriving DecidableEq

/-- Process start: all globals at their initializers (`false`, `0`,
`nullptr`, no thread). -/
def EngineState.init : EngineState :=
  { g_stop_capture := false, g_write_index := 0, g_shared_buffer := false,
    joinable := false, contexts := 0, local_write_index := 0, flow_counter := 0 }

/-- One iteration body of `capture_loop` (lines 153-170): if
`g_shared_buffer` is non-null, fill the slot at `local_write_index`
(the written slot index is logged as the second component), then publish
`next_index = (local_write_index + 1) % MAX_BUFFER_SLOTS` to
`g_write_index` and to the local index; if the pointer is null, do
nothing at all.  The slot payload (clock timestamp, random length) is
environment input, so the log records which slot was written rather than
its bytes. -/
def loop_body (s : EngineState) : EngineState × List Nat :=
  if s.g_shared_buffer then
    ({ s with g_write_index := (s.local_write_index + 1) % 1024,
              local_write_index := (s.local_write_index + 1) % 1024,
              flow_counter := s.flow_counter + 1 },
     [s.local_write_index])
  else
    (s, [])

/-- `capture_loop`'s while loop: each element of `stop_reads` is one
acquire-load of `g_stop_capture` at the top of the loop (the flag is set
by a concurrent `stop_capture_engine`, so the successive readings are an
input).  A `true` reading exits the loop; a `false` reading runs the
body.  Returns the final state and the concatenated log of slot writes. -/
def capture_loop (stop_reads : List Bool) (s : EngineState) :
    EngineState × List Nat :=
  match stop_reads with
  | [] => (s, [])
  | b :: rest =>
    if b then (s, [])
    else
      let p := loop_body s
      let q := capture_loop rest p.1
      (q.1, p.2 ++ q.2)

/-- `start_capture_engine` (lines 186-207), success path of thread
creation: if `g_capture_thread.joinable()` return 1; otherwise clear the
stop flag, install the buffer pointer, launch a capture-loop context and
immediately `detach()` it — which leaves `joinable()` false — and
return 0. -/
def start_capture_engine (s : EngineState) (buffer : Bool) : EngineState × Nat :=
  if s.joinable then
    (s, 1)
  else
    ({ s with g_stop_capture := false, g_shared_buffer := buffer,
              contexts := s.contexts + 1, local_write_index := 0,
              flow_counter := 0, joinable := false },
     0)

/-- `stop_capture_engine`: release-store `true` into `g_stop_capture`,
return 0. -/
def stop_capture_engine (s : EngineState) : EngineState × Nat :=
  ({ s with g_stop_capture := true }, 0)

/-- `get_write_index`: acquire-load of `g_write_index`. -/
def get_write_index (s : EngineState) : Nat :=
  s.g_write_index

/-- Interleaving events of the engine: a `start_capture_engine` call
with a given buffer, a `stop_capture_engine` call, one iteration of a
running capture loop that read the stop flag as false, and the exit of a
running capture loop that read the stop flag as true. -/
inductive EngEvent where
  | start (buffer : Bool)
  | stop
  | iter
  | exitLoop
deriving DecidableEq

/-- One engine step.  A loop iteration happens only while a context is
live and the stop flag reads false; a loop exit only while a context is
live and the flag reads true. -/
def engStep (s : EngineState) : EngEvent → EngineState
  | EngEvent.start b => (start_capture_engine s b).1
  | EngEvent.stop => (stop_capture_engine s).1
  | EngEvent.iter =>
    if 0 < s.contexts ∧ s.g_stop_capture = false then (loop_body s).1 else s
  | EngEvent.exitLoop =>
    if 0 < s.contexts ∧ s.g_stop_capture = true then
      { s with contexts := s.contexts - 1 }
    else s

/-- The reachable state after a sequence of engine events from process
start. -/
def runE (es : List EngEvent) : EngineState :=
  es.foldl engStep EngineState.init

/-- Claim C6: the already-running guard never fires.  From process
start, a first `start_capture_engine` succeeds (returns 0) and leaves
one capture context running with the stop flag clear; calling
`start_capture_engine` again in that running state returns 0 — not 1 —
and launches a second capture context, because `detach()` made
`g_capture_thread` non-joinable immediately after the first launch. -/
theorem c6_second_start_launches_again :
    (start_capture_engine EngineState.init true).2 = 0 ∧
    (start_capture_engine EngineState.init true).1.contexts = 1 ∧
    (start_capture_engine EngineState.init true).1.g_stop_capture = false ∧
    (start_capture_engine (start_capture_engine EngineState.init true).1 true).2
      = 0 ∧
    (start_capture_engine (start_capture_engine EngineState.init true).1
        true).1.contexts = 2 := by
  decide

/-- Claim C7: a capture loop whose shared-buffer pointer is null never
writes through the pointer (empty write log), changes no state, and
exits normally whatever the sequence of stop-flag readings is. -/
theorem c7_null_buffer_idle (stop_reads : List Bool) (s : EngineState)
    (h : s.g_shared_buffer = false) :
    capture_loop stop_reads s = (s, []) := by
  induction stop_reads with
  | nil => rfl
  | cons b rest ih =>
    cases b
    · simp [capture_loop, loop_body, h, ih]
    · simp [capture_loop]

/-- Witness for C7: with no buffer installed, three loop iterations and
a stop produce no writes and leave the state untouched. -/
theorem c7_null_buffer_idle_witness :
    EngineState.init.g_shared_buffer = false ∧
    capture_loop [false, false, false, true] EngineState.init
      = (EngineState.init, []) :=
  ⟨rfl, c7_null_buffer_idle [false, false, false, true] EngineState.init rfl⟩

/-- Every engine step keeps both the published and the local write index
below `MAX_BUFFER_SLOTS = 1024`. -/
theorem engStep_write_bound (s : EngineState) (e : EngEvent)
    (h1 : s.g_write_index < 1024) (h2 : s.local_write_index < 1024) :
    (engStep s e).g_write_index < 1024 ∧
    (engStep s e).local_write_index < 1024 := by
  cases e with
  | start b =>
    simp only [engStep, start_capture_engine]
    split
    · exact ⟨h1, h2⟩
    · exact ⟨h1, show (0 : Nat) < 1024 by decide⟩
  | stop => exact ⟨h1, h2⟩
  | iter =>
    simp only [engStep, loop_body]
    split
    · split
      · exact ⟨Nat.mod_lt _ (by omega), Nat.mod_lt _ (by omega)⟩
      · exact ⟨h1, h2⟩
    · exact ⟨h1, h2⟩
  | exitLoop =>
    simp only [engStep]
    split
    · exact ⟨h1, h2⟩
    · exact ⟨h1, h2⟩

theorem runE_write_bound_aux (es : List EngEvent) :
    ∀ s : EngineState, s.g_write_index < 1024 → s.local_write_index < 1024 →
    (es.foldl engStep s).g_write_index < 1024 ∧
    (es.foldl engStep s).local_write_index < 1024 := by
  induction es with
  | nil => intro s h1 h2; exact ⟨h1, h2⟩
  | cons e rest ih =>
    intro s h1 h2
    have h := engStep_write_bound s e h1 h2
    exact ih (engStep s e) h.1 h.2

/-- Claim C9, counterexample to the advance-by-one clause: run
start, two published iterations (index 0 then values 1, 2), stop, loop
exit, then start again.  The restarted loop's first publication stores
`(0 + 1) % 1024 = 1` while the published index was 2, so that
publication moves `g_write_index` from 2 to 1, not to `(2 + 1) % 1024`:
`local_write_index` restarts at 0 but `g_write_index` is never reset. -/
theorem c9_restart_breaks_plus_one :
    (engStep (runE [EngEvent.start true, EngEvent.iter, EngEvent.iter,
          EngEvent.stop, EngEvent.exitLoop, EngEvent.start true])
        EngEvent.iter).g_write_index
      ≠ ((runE [EngEvent.start true, EngEvent.iter, EngEvent.iter,
            EngEvent.stop, EngEvent.exitLoop, EngEvent.start true]).g_write_index
          + 1) % 1024 ∧
    (runE [EngEvent.start true, EngEvent.iter, EngEvent.iter,
        EngEvent.stop, EngEvent.exitLoop, EngEvent.start true]).g_write_index
      = 2 ∧
    (engStep (runE [EngEvent.start true, EngEvent.iter, EngEvent.iter,
          EngEvent.stop, EngEvent.exitLoop, EngEvent.start true])
        EngEvent.iter).g_write_index
      = 1 := by
  decide

/-- Claim C9 as amended: the published producer write index starts at 0
and, in every state reachable by any sequence of engine events,
`get_write_index` returns a value in the slot range (below
`MAX_BUFFER_SLOTS = 1024`), since every publication stores a value
reduced modulo 1024 — though across a stop/restart the advance need not
be by exactly 1. -/
theorem c9_write_index_range :
    get_write_index EngineState.init = 0 ∧
    ∀ es : List EngEvent, get_write_index (runE es) < 1024 := by
  refine ⟨rfl, fun es => ?_⟩
  exact (runE_write_bound_aux es EngineState.init (by decide) (by decide)).1
